import Mathlib

/-!
Shallow embedding of the synthetic seismic-catalog generation scripts
(`generate_bootstrap_synthetics.py`, `generate_physics_snapshots.py`,
`generate_simple_synthetics.py`, `analyze_earthquake_data.py`,
`assemble_dataset.py`, `finalize_dataset.py`).

Python floats are modelled as real numbers.  Every call that the scripts make
into the process-wide random generators (`random.uniform`, `random.random`,
`random.choice`, `random.randint`, `np.random.lognormal`, `DataFrame.sample`)
is modelled as reading position `i` of an explicit stream `ℕ → ℝ` (or `ℕ → ℕ`
for index draws); the scripts themselves accept no seed and never seed those
generators.  Calendar arithmetic and `strftime` formatting are modelled by an
abstract formatter `ℝ → String` (the spec excludes timestamp I/O mechanics
from the core).
-/

namespace SynthData

/-- Base-10 logarithm, as `np.log10` / `math.log10` on positive floats. -/
noncomputable def log10 (x : ℝ) : ℝ := Real.logb 10 x

/-- Ten to a real power, as Python's `10 ** x`. -/
noncomputable def pow10 (x : ℝ) : ℝ := (10 : ℝ) ^ x

/-- Zero-padded three-digit rendering, as Python's `f"{n:03d}"`. -/
def pad3 (n : ℕ) : String :=
  if n < 10 then "00" ++ toString n
  else if n < 100 then "0" ++ toString n
  else toString n

/-- One catalog row.  Fields are the CSV columns shared by the pipeline;
columns that some producers leave unset (NaN after `pd.concat`) are `Option`s.
`rupture_length_km`, `rupture_width_km` and `rupture_area_km2` are set by all
three generators; on template/real rows their content is irrelevant (every
generator overwrites them). -/
structure Event where
  id : String
  time : String
  magnitude : ℝ
  longitude : ℝ
  latitude : ℝ
  depth_km : ℝ
  log_energy : Option ℝ
  is_synthetic : ℕ
  sample_weight : ℝ
  method : String
  rupture_length_km : ℝ
  rupture_width_km : ℝ
  rupture_area_km2 : ℝ
  avg_slip_m : Option ℝ
  segment_id : Option String
  strike : Option ℝ
  dip : Option ℝ
  rake : Option ℝ

instance : Inhabited Event :=
  ⟨{ id := "", time := "", magnitude := 0, longitude := 0, latitude := 0,
     depth_km := 0, log_energy := none, is_synthetic := 0, sample_weight := 0,
     method := "", rupture_length_km := 0, rupture_width_km := 0,
     rupture_area_km2 := 0, avg_slip_m := none, segment_id := none,
     strike := none, dip := none, rake := none }⟩

/-- One fault trace row of `marmara_faults.csv`, with its coordinate string
already parsed into ordered (longitude, latitude) vertices. -/
structure FaultSegment where
  segment_id : String
  coordinates : List (ℝ × ℝ)
  strike : ℝ
  dip : ℝ
  rake : ℝ

instance : Inhabited FaultSegment := ⟨⟨"", [], 0, 0, 0⟩⟩

/-- Haversine great-circle distance in km between two (lon, lat) points,
Earth radius 6371 km (`generate_physics_snapshots.py` lines 94-107). -/
noncomputable def haversineKm (p1 p2 : ℝ × ℝ) : ℝ :=
  let lat1 := p1.2 * Real.pi / 180
  let lon1 := p1.1 * Real.pi / 180
  let lat2 := p2.2 * Real.pi / 180
  let lon2 := p2.1 * Real.pi / 180
  let dlon := lon2 - lon1
  let dlat := lat2 - lat1
  let a := Real.sin (dlat / 2) ^ 2 +
    Real.cos lat1 * Real.cos lat2 * Real.sin (dlon / 2) ^ 2
  let c := 2 * Real.arcsin (Real.sqrt a)
  c * 6371

/-- Total trace length: haversine distances summed over consecutive vertex
pairs (`segment_can_host_rupture`, lines 91-109). -/
noncomputable def segmentLength (segment : FaultSegment) : ℝ :=
  (segment.coordinates.zip segment.coordinates.tail).foldl
    (fun acc pq => acc + haversineKm pq.1 pq.2) 0

/-- Predicate of `segment_can_host_rupture` (line 111):
the trace is at least as long as the rupture. -/
def segment_can_host_rupture (segment : FaultSegment) (rupture_length : ℝ) : Prop :=
  segmentLength segment ≥ rupture_length

/-- Sanity-check filter that `generate_bootstrap_synthetics.py` (lines 93-101)
and `generate_physics_snapshots.py` (lines 196-204) both apply before saving:
drop any row with `depth_km < 0` or `rupture_length_km > 200`. -/
noncomputable def validityFilter (synthetics_df : List Event) : List Event :=
  synthetics_df.filter fun e =>
    decide (¬ (e.depth_km < 0 ∨ e.rupture_length_km > 200))

/-- Wells-Coppersmith subsurface rupture length
`10 ** (-2.44 + 0.59 * M)` km (bootstrap script lines 64-67). -/
noncomputable def wcLength (M : ℝ) : ℝ := pow10 (-2.44 + 0.59 * M)

/-- Wells-Coppersmith subsurface rupture width
`10 ** (-1.01 + 0.32 * M)` km (bootstrap script lines 69-71). -/
noncomputable def wcWidth (M : ℝ) : ℝ := pow10 (-1.01 + 0.32 * M)

/-- Template selection of the bootstrap strategy (line 33): real events with
`5.0 <= magnitude < 6.0`. -/
noncomputable def bootstrapTemplates (eq_data : List Event) : List Event :=
  eq_data.filter fun e => decide (5.0 ≤ e.magnitude ∧ e.magnitude < 6.0)

/-- One bootstrap synthetic from one template (loop body, lines 39-87):
copy the template, then overwrite magnitude, id, `log_energy`, the
Wells-Coppersmith rupture dimensions at the new magnitude, and the synthetic
tags.  `magnitude_increase` is the per-template `random.uniform(1.5, 2.3)`
draw.  All other columns (time, longitude, latitude, depth_km, ...) keep the
template's values. -/
noncomputable def bootstrapSynthetic (magnitude_increase : ℝ) (event : Event) : Event :=
  let new_mag := event.magnitude + magnitude_increase
  { event with
    magnitude := new_mag
    id := "SYN_" ++ event.id
    log_energy := event.log_energy.map fun le => le + 1.5 * magnitude_increase
    rupture_length_km := wcLength new_mag
    rupture_width_km := wcWidth new_mag
    rupture_area_km2 := wcLength new_mag * wcWidth new_mag
    is_synthetic := 1
    sample_weight := 0.3
    method := "bootstrap" }

/-- Raw bootstrap output before the sanity check: one synthetic per template,
in template order, the `i`-th consuming the `i`-th uniform draw. -/
noncomputable def bootstrapRaw (dMs : ℕ → ℝ) (templates : List Event) : List Event :=
  templates.mapIdx fun i e => bootstrapSynthetic (dMs i) e

/-- Whole bootstrap script: build one synthetic per template, and if the raw
list is nonempty filter it and persist/return it; with no raw events the
script prints a notice, persists nothing and returns `None` (lines 90-138). -/
noncomputable def generate_bootstrap_synthetics (dMs : ℕ → ℝ) (eq_data : List Event) :
    Option (List Event) :=
  let synthetic_events := bootstrapRaw dMs (bootstrapTemplates eq_data)
  if synthetic_events.isEmpty then none
  else some (validityFilter synthetic_events)

/-- Truncated Gutenberg-Richter magnitude draw of the physics script (lines
59-65): `mag = 6.5 - np.log10(1 - r) / b_value`, capped at `7.3`; `r` is the
`random.random()` draw in `[0, 1)`. -/
noncomputable def magSample (b_value r : ℝ) : ℝ :=
  min (6.5 - log10 (1 - r) / b_value) 7.3

/-- One physics synthetic event (lines 137-187).  `rupture_area = 10^(M-4)`
km², 2:1 shape so `length = sqrt(area * 2)` and `width = length / 2`;
`moment = 10^(1.5 M + 9.1)` Nm; `avg_slip = moment / (mu * area * 1e6)` with
`mu = 3.2e10` Pa; the scattered `slip = avg_slip * slip_variation`
(`np.random.lognormal(0, 0.3)` draw) is computed on line 146 but the record
stores `avg_slip` (line 162).  The epicenter is a random vertex of the chosen
trace plus the two uniform `±0.045°` jitter draws. -/
noncomputable def physicsEvent (i : ℕ) (magnitude : ℝ) (selected_segment : FaultSegment)
    (depth slip_variation jitterLon jitterLat : ℝ) (vertexIdx : ℕ)
    (timeStr : String) : Event :=
  let rupture_area := pow10 (magnitude - 4.0)
  let rupture_length := Real.sqrt (rupture_area * 2)
  let rupture_width := rupture_length / 2
  let moment := pow10 (1.5 * magnitude + 9.1)
  let mu : ℝ := 3.2e10
  let avg_slip := moment / (mu * rupture_area * 1e6)
  let _slip := avg_slip * slip_variation
  let coord_pairs := selected_segment.coordinates
  let p := coord_pairs.getD (vertexIdx % coord_pairs.length) (0, 0)
  { id := "SYN_PHYS_" ++ pad3 (i + 1)
    time := timeStr
    magnitude := magnitude
    longitude := p.1 + jitterLon
    latitude := p.2 + jitterLat
    depth_km := depth
    log_energy := none
    is_synthetic := 1
    sample_weight := 0.5
    method := "physics"
    rupture_length_km := rupture_length
    rupture_width_km := rupture_width
    rupture_area_km2 := rupture_area
    avg_slip_m := some avg_slip
    segment_id := some selected_segment.segment_id
    strike := some selected_segment.strike
    dip := some selected_segment.dip
    rake := some selected_segment.rake }

/-- Fault segments long enough to host the rupture (lines 125-128): the
filter keeping every segment with `segment_can_host_rupture`. -/
noncomputable def suitableSegments (fault_data : List FaultSegment)
    (rupture_length : ℝ) : List FaultSegment :=
  fault_data.filter fun s => decide (segmentLength s ≥ rupture_length)

/-- Loop body of the physics generator for index `i` (lines 114-190): draw a
magnitude, size the rupture, collect the fault segments long enough to host
it; with none, warn and skip the index (`none`); otherwise pick one of them
(`random.choice`, modelled by the `segPick` draw taken modulo the count) and
build the event.  `depths`, `slips`, `jLons`, `jLats`, `vertPick` are the
per-event depth, log-normal slip-scatter, jitter and vertex draws;
`monthDraws i * i` months feed the origin-time arithmetic, abstracted by the
calendar formatter `fmtDate`. -/
noncomputable def physicsStep (fault_data : List FaultSegment) (b_value : ℝ)
    (rs depths slips jLons jLats monthDraws : ℕ → ℝ) (segPick vertPick : ℕ → ℕ)
    (fmtDate : ℝ → String) (i : ℕ) : Option Event :=
  if (suitableSegments fault_data
      (Real.sqrt (pow10 (magSample b_value (rs i) - 4.0) * 2))).isEmpty then none
  else
    some (physicsEvent i (magSample b_value (rs i))
      ((suitableSegments fault_data
          (Real.sqrt (pow10 (magSample b_value (rs i) - 4.0) * 2))).getD
        (segPick i % (suitableSegments fault_data
          (Real.sqrt (pow10 (magSample b_value (rs i) - 4.0) * 2))).length) default)
      (depths i) (slips i) (jLons i) (jLats i) (vertPick i)
      (fmtDate (monthDraws i * i)))

/-- Raw physics output: the loop body over indices `0 .. n_synthetics - 1`,
skipped indices contributing nothing. -/
noncomputable def physicsRaw (fault_data : List FaultSegment) (b_value : ℝ)
    (rs depths slips jLons jLats monthDraws : ℕ → ℝ) (segPick vertPick : ℕ → ℕ)
    (fmtDate : ℝ → String) (n_synthetics : ℕ) : List Event :=
  (List.range n_synthetics).filterMap
    (physicsStep fault_data b_value rs depths slips jLons jLats monthDraws
      segPick vertPick fmtDate)

/-- Whole physics script (lines 192-268): if the raw list is nonempty, filter
with the same sanity check as the bootstrap script and persist/return it;
with no raw events the script prints a notice, persists nothing and returns
`None`. -/
noncomputable def generate_physics_snapshots (fault_data : List FaultSegment) (b_value : ℝ)
    (rs depths slips jLons jLats monthDraws : ℕ → ℝ) (segPick vertPick : ℕ → ℕ)
    (fmtDate : ℝ → String) (n_synthetics : ℕ) : Option (List Event) :=
  let synthetic_events := physicsRaw fault_data b_value rs depths slips jLons jLats
    monthDraws segPick vertPick fmtDate n_synthetics
  if synthetic_events.isEmpty then none
  else some (validityFilter synthetic_events)

/-- Template pool of the simple strategy (line 28): events of the combined
dataset with `magnitude >= 5.0`. -/
noncomputable def simpleTemplates (all_data : List Event) : List Event :=
  all_data.filter fun e => decide (5.0 ≤ e.magnitude)

/-- One simple synthetic (loop body of `generate_simple_synthetics.py`, lines
35-88): fresh magnitude `uniform(6.5, 7.3)`, template location jittered by
`uniform(-0.3, 0.3)` / `uniform(-0.2, 0.2)` then clamped to the Marmara box
`[26.0, 30.5] × [39.5, 41.5]`, fresh depth `uniform(5, 20)`, fresh random
timestamp, area-law rupture dimensions.  No field of the template other than
its location is used. -/
noncomputable def simpleEvent (i : ℕ) (template : Event)
    (magnitude dLon dLat depth : ℝ) (timeStr : String) : Event :=
  let longitude := max 26.0 (min 30.5 (template.longitude + dLon))
  let latitude := max 39.5 (min 41.5 (template.latitude + dLat))
  let area := pow10 (magnitude - 4.0)
  let length := Real.sqrt (area * 2)
  { id := "SYN_SIMPLE_" ++ pad3 (i + 1)
    time := timeStr
    magnitude := magnitude
    longitude := longitude
    latitude := latitude
    depth_km := depth
    log_energy := none
    is_synthetic := 1
    sample_weight := 0.2
    method := "simple"
    rupture_length_km := length
    rupture_width_km := length / 2
    rupture_area_km2 := area
    avg_slip_m := none
    segment_id := none
    strike := none
    dip := none
    rake := none }

/-- Whole simple script: `n_synthetic` events (the script fixes 10), each from
a template sampled uniformly with replacement (`templates.sample(1)`, modelled
by `tmplPick i` modulo the pool size).  `DataFrame.sample(1)` raises on an
empty pool, modelled as `none`; otherwise the built list is saved directly —
this script applies no validity filter (lines 90-97). -/
noncomputable def generate_simple_synthetics (all_data : List Event)
    (tmplPick : ℕ → ℕ) (mags dLons dLats depths : ℕ → ℝ) (times : ℕ → String)
    (n_synthetic : ℕ) : Option (List Event) :=
  let templates := simpleTemplates all_data
  if templates.isEmpty ∧ 0 < n_synthetic then none
  else some ((List.range n_synthetic).map fun i =>
    simpleEvent i (templates.getD (tmplPick i % templates.length) default)
      (mags i) (dLons i) (dLats i) (depths i) (times i))

/-- Maximum-likelihood b-value estimator (`analyze_earthquake_data.py` lines
62-75): keep magnitudes `>= m_min`; with fewer than 2 return `(None, None)`;
otherwise `b = log10(e) / (mean - m_min)` and
`uncertainty = 2.3 * b / sqrt(n)`. -/
noncomputable def estimate_b_value (magnitudes : List ℝ) (m_min : ℝ) :
    Option (ℝ × ℝ) :=
  let mags := magnitudes.filter fun m => decide (m_min ≤ m)
  if mags.length < 2 then none
  else
    let mean_mag := mags.sum / (mags.length : ℝ)
    let b_value := log10 (Real.exp 1) / (mean_mag - m_min)
    let uncertainty := 2.3 * b_value / Real.sqrt (mags.length : ℝ)
    some (b_value, uncertainty)

/-- Row-concatenation core of `assemble_dataset.py` (line 53):
`pd.concat([real_data, bootstrap_data, physics_data], ignore_index=True)`.
The steps that follow (datetime/year derivation, `cv_fold` and `mag_range`
assignment) add columns in place and touch no row count. -/
def assemble_dataset (real_data bootstrap_data physics_data : List Event) :
    List Event :=
  real_data ++ bootstrap_data ++ physics_data

/-- Row-concatenation core of `finalize_dataset.py` (line 55), with the simple
synthetics as a fourth input. -/
def finalize_dataset (real_data bootstrap_data physics_data simple_data : List Event) :
    List Event :=
  real_data ++ bootstrap_data ++ physics_data ++ simple_data

/-- Bootstrap script as invoked in a run with an explicitly supplied seed.
The script has no seed parameter and never seeds the `random` module, so a
supplied seed is simply unused and the draws are the ambient process-wide
generator's. -/
noncomputable def bootstrapRunWithSeed (_seed : ℕ) (ambient : ℕ → ℝ)
    (eq_data : List Event) : Option (List Event) :=
  generate_bootstrap_synthetics ambient eq_data

/-- Physics script as invoked in a run with an explicitly supplied seed; as
with the bootstrap script, no seed is accepted or used. -/
noncomputable def physicsRunWithSeed (_seed : ℕ) (fault_data : List FaultSegment)
    (b_value : ℝ) (rs depths slips jLons jLats monthDraws : ℕ → ℝ)
    (segPick vertPick : ℕ → ℕ) (fmtDate : ℝ → String) (n_synthetics : ℕ) :
    Option (List Event) :=
  generate_physics_snapshots fault_data b_value rs depths slips jLons jLats
    monthDraws segPick vertPick fmtDate n_synthetics

/-- Simple script as invoked in a run with an explicitly supplied seed; no
seed is accepted or used. -/
noncomputable def simpleRunWithSeed (_seed : ℕ) (all_data : List Event)
    (tmplPick : ℕ → ℕ) (mags dLons dLats depths : ℕ → ℝ) (times : ℕ → String)
    (n_synthetic : ℕ) : Option (List Event) :=
  generate_simple_synthetics all_data tmplPick mags dLons dLats depths times n_synthetic

/-! Concrete catalog rows used by counterexamples and witnesses. -/

/-- Concrete real-catalog row: a magnitude-5.5 template. -/
def tmplA : Event :=
  { id := "EQ1", time := "2004-05-01 00:00:00", magnitude := 5.5, longitude := 27.4,
    latitude := 40.8, depth_km := 10, log_energy := some 13.05, is_synthetic := 0,
    sample_weight := 1, method := "real", rupture_length_km := 0, rupture_width_km := 0,
    rupture_area_km2 := 0, avg_slip_m := none, segment_id := none, strike := none,
    dip := none, rake := none }

/-- Concrete real-catalog row: a magnitude-5.0 template (the template filter's
lower endpoint). -/
def tmplB : Event := { tmplA with id := "EQ2", magnitude := 5.0 }

/-- Concrete real-catalog row: a magnitude-5.9 template. -/
def tmplC : Event := { tmplA with id := "EQ3", magnitude := 5.9 }

/-- Concrete fault segment used by witnesses. -/
def segA : FaultSegment := ⟨"S1", [(27, 40.5), (28, 40.6)], 90, 85, -5⟩

/-! Arithmetic helper lemmas about `pow10`. -/

lemma pow10_pos (x : ℝ) : 0 < pow10 x :=
  Real.rpow_pos_of_pos (by norm_num) x

lemma pow10_le_pow10 {x y : ℝ} (h : x ≤ y) : pow10 x ≤ pow10 y :=
  (Real.rpow_le_rpow_left_iff (by norm_num : (1 : ℝ) < 10)).mpr h

lemma pow10_two : pow10 2 = 100 := by
  rw [pow10, show (2 : ℝ) = ((2 : ℕ) : ℝ) by norm_num, Real.rpow_natCast]
  norm_num

lemma pow10_four : pow10 4 = 10000 := by
  rw [pow10, show (4 : ℝ) = ((4 : ℕ) : ℝ) by norm_num, Real.rpow_natCast]
  norm_num

/-- Area-law rupture length stays below 200 km for magnitudes up to 7.3. -/
lemma sqrt_area_lt_200 {M : ℝ} (h : M ≤ 7.3) :
    Real.sqrt (pow10 (M - 4.0) * 2) < 200 := by
  have h1 : pow10 (M - 4.0) ≤ pow10 4 := pow10_le_pow10 (by linarith)
  rw [pow10_four] at h1
  exact (Real.sqrt_lt' (by norm_num : (0 : ℝ) < 200)).mpr (by nlinarith)

/-- Wells-Coppersmith length stays at or below 200 km for magnitudes up
to 7.5. -/
lemma wcLength_le_200 {M : ℝ} (h : M ≤ 7.5) : wcLength M ≤ 200 := by
  have h1 : (-2.44 + 0.59 * M : ℝ) ≤ 2 := by nlinarith
  have h2 : wcLength M ≤ pow10 2 := pow10_le_pow10 h1
  rw [pow10_two] at h2
  linarith

/-! Projection lemmas for the event builders. -/

@[simp] lemma bootstrapSynthetic_id (dM : ℝ) (t : Event) :
    (bootstrapSynthetic dM t).id = "SYN_" ++ t.id := rfl

@[simp] lemma bootstrapSynthetic_time (dM : ℝ) (t : Event) :
    (bootstrapSynthetic dM t).time = t.time := rfl

@[simp] lemma bootstrapSynthetic_magnitude (dM : ℝ) (t : Event) :
    (bootstrapSynthetic dM t).magnitude = t.magnitude + dM := rfl

@[simp] lemma bootstrapSynthetic_longitude (dM : ℝ) (t : Event) :
    (bootstrapSynthetic dM t).longitude = t.longitude := rfl

@[simp] lemma bootstrapSynthetic_latitude (dM : ℝ) (t : Event) :
    (bootstrapSynthetic dM t).latitude = t.latitude := rfl

@[simp] lemma bootstrapSynthetic_depth (dM : ℝ) (t : Event) :
    (bootstrapSynthetic dM t).depth_km = t.depth_km := rfl

@[simp] lemma bootstrapSynthetic_log_energy (dM : ℝ) (t : Event) :
    (bootstrapSynthetic dM t).log_energy
      = t.log_energy.map fun le => le + 1.5 * dM := rfl

@[simp] lemma bootstrapSynthetic_length (dM : ℝ) (t : Event) :
    (bootstrapSynthetic dM t).rupture_length_km = wcLength (t.magnitude + dM) := rfl

@[simp] lemma bootstrapSynthetic_width (dM : ℝ) (t : Event) :
    (bootstrapSynthetic dM t).rupture_width_km = wcWidth (t.magnitude + dM) := rfl

@[simp] lemma bootstrapSynthetic_method (dM : ℝ) (t : Event) :
    (bootstrapSynthetic dM t).method = "bootstrap" := rfl

@[simp] lemma bootstrapSynthetic_weight (dM : ℝ) (t : Event) :
    (bootstrapSynthetic dM t).sample_weight = 0.3 := rfl

@[simp] lemma physicsEvent_depth (i : ℕ) (m : ℝ) (s : FaultSegment)
    (d sv jx jy : ℝ) (vi : ℕ) (ts : String) :
    (physicsEvent i m s d sv jx jy vi ts).depth_km = d := rfl

@[simp] lemma physicsEvent_magnitude (i : ℕ) (m : ℝ) (s : FaultSegment)
    (d sv jx jy : ℝ) (vi : ℕ) (ts : String) :
    (physicsEvent i m s d sv jx jy vi ts).magnitude = m := rfl

@[simp] lemma physicsEvent_length (i : ℕ) (m : ℝ) (s : FaultSegment)
    (d sv jx jy : ℝ) (vi : ℕ) (ts : String) :
    (physicsEvent i m s d sv jx jy vi ts).rupture_length_km
      = Real.sqrt (pow10 (m - 4.0) * 2) := rfl

@[simp] lemma physicsEvent_avg_slip (i : ℕ) (m : ℝ) (s : FaultSegment)
    (d sv jx jy : ℝ) (vi : ℕ) (ts : String) :
    (physicsEvent i m s d sv jx jy vi ts).avg_slip_m
      = some (pow10 (1.5 * m + 9.1) / (3.2e10 * pow10 (m - 4.0) * 1e6)) := rfl

@[simp] lemma simpleEvent_depth (i : ℕ) (t : Event) (m dx dy d : ℝ) (ts : String) :
    (simpleEvent i t m dx dy d ts).depth_km = d := rfl

@[simp] lemma simpleEvent_magnitude (i : ℕ) (t : Event) (m dx dy d : ℝ) (ts : String) :
    (simpleEvent i t m dx dy d ts).magnitude = m := rfl

@[simp] lemma simpleEvent_length (i : ℕ) (t : Event) (m dx dy d : ℝ) (ts : String) :
    (simpleEvent i t m dx dy d ts).rupture_length_km
      = Real.sqrt (pow10 (m - 4.0) * 2) := rfl

/-! Helper lemmas about the validity filter and the strategy pipelines. -/

/-- Membership in the filtered table is membership in the raw table plus the
two physical bounds. -/
lemma mem_validityFilter {l : List Event} {e : Event} :
    e ∈ validityFilter l ↔ e ∈ l ∧ 0 ≤ e.depth_km ∧ e.rupture_length_km ≤ 200 := by
  unfold validityFilter
  rw [List.mem_filter]
  simp [not_or, not_lt]

/-- A table whose rows all satisfy the two bounds passes the filter whole. -/
lemma validityFilter_eq_self {l : List Event}
    (h : ∀ e ∈ l, 0 ≤ e.depth_km ∧ e.rupture_length_km ≤ 200) :
    validityFilter l = l := by
  apply List.filter_eq_self.mpr
  intro e he
  simpa [not_or, not_lt] using h e he

lemma bootstrapTemplates_singleton {t : Event} (h5 : 5.0 ≤ t.magnitude)
    (h6 : t.magnitude < 6.0) : bootstrapTemplates [t] = [t] := by
  unfold bootstrapTemplates
  rw [List.filter_cons_of_pos (by simp [h5, h6]), List.filter_nil]

lemma bootstrapRaw_singleton (dMs : ℕ → ℝ) (t : Event) :
    bootstrapRaw dMs [t] = [bootstrapSynthetic (dMs 0) t] := by
  simp [bootstrapRaw]

lemma bootstrapRaw_get? (dMs : ℕ → ℝ) (ts : List Event) (i : ℕ) :
    (bootstrapRaw dMs ts).get? i
      = (ts.get? i).map fun t => bootstrapSynthetic (dMs i) t := by
  simp [bootstrapRaw, List.get?_eq_getElem?, List.getElem?_mapIdx]

lemma bootstrapRaw_length (dMs : ℕ → ℝ) (ts : List Event) :
    (bootstrapRaw dMs ts).length = ts.length := by
  simp [bootstrapRaw]

/-- Running the bootstrap script on one in-range template: the template
passes the filter, the one synthetic is built and survives the sanity check
(its depth is the template's and its Wells-Coppersmith length is under
200 km for the magnitudes reachable here). -/
lemma generate_bootstrap_singleton {t : Event} (dMs : ℕ → ℝ)
    (h5 : 5.0 ≤ t.magnitude) (h6 : t.magnitude < 6.0)
    (hd : 0 ≤ t.depth_km) (hM : t.magnitude + dMs 0 ≤ 7.5) :
    generate_bootstrap_synthetics dMs [t]
      = some [bootstrapSynthetic (dMs 0) t] := by
  unfold generate_bootstrap_synthetics
  rw [bootstrapTemplates_singleton h5 h6, bootstrapRaw_singleton]
  rw [if_neg (by simp)]
  congr 1
  apply validityFilter_eq_self
  intro e he
  rw [List.mem_singleton] at he
  subst he
  exact ⟨by simpa using hd, by simpa using wcLength_le_200 hM⟩

/-! Claim theorems. -/

/-- C7: every magnitude drawn by the sampler `M = min(6.5 - log10(1-u)/b, 7.3)`
with a positive b-value and a `random.random()` draw `u ∈ [0,1)` satisfies
`6.5 ≤ M ≤ 7.3` (floor 6.5, cap 7.3 are the script's constants). -/
theorem magSample_bounds (b_value r : ℝ) (hb : 0 < b_value) (h0 : 0 ≤ r)
    (h1 : r < 1) : 6.5 ≤ magSample b_value r ∧ magSample b_value r ≤ 7.3 := by
  have hx0 : (0 : ℝ) < 1 - r := by linarith
  have hx1 : (1 : ℝ) - r ≤ 1 := by linarith
  have hlog : log10 (1 - r) ≤ 0 := Real.logb_nonpos (by norm_num) hx0.le hx1
  have hdiv : log10 (1 - r) / b_value ≤ 0 :=
    div_nonpos_of_nonpos_of_nonneg hlog hb.le
  exact ⟨le_min (by linarith [hdiv]) (by norm_num), min_le_right _ _⟩

/-- Witness for C7 at `b = 1`, `u = 0`. -/
theorem magSample_bounds_witness :
    (0 : ℝ) < 1 ∧ (0 : ℝ) ≤ 0 ∧ (0 : ℝ) < 1 ∧
      (6.5 ≤ magSample 1 0 ∧ magSample 1 0 ≤ 7.3) :=
  ⟨by norm_num, le_refl 0, by norm_num,
    magSample_bounds 1 0 (by norm_num) (le_refl 0) (by norm_num)⟩

/-- C8: both assembly scripts concatenate their input tables, so the output
row count is the sum of the input row counts, and, for any predicate, the
number of matching rows is likewise the sum over the inputs: no row is
duplicated or dropped during assembly. -/
theorem assemble_finalize_length
    (real_data bootstrap_data physics_data simple_data : List Event) :
    (assemble_dataset real_data bootstrap_data physics_data).length
        = real_data.length + bootstrap_data.length + physics_data.length ∧
    (finalize_dataset real_data bootstrap_data physics_data simple_data).length
        = real_data.length + bootstrap_data.length + physics_data.length
          + simple_data.length ∧
    (∀ p : Event → Bool,
      (assemble_dataset real_data bootstrap_data physics_data).countP p
        = real_data.countP p + bootstrap_data.countP p + physics_data.countP p) ∧
    (∀ p : Event → Bool,
      (finalize_dataset real_data bootstrap_data physics_data simple_data).countP p
        = real_data.countP p + bootstrap_data.countP p + physics_data.countP p
          + simple_data.countP p) := by
  refine ⟨?_, ?_, fun p => ?_, fun p => ?_⟩ <;>
    simp [assemble_dataset, finalize_dataset, List.countP_append, Nat.add_assoc]

/-- C2 (code bug): at magnitude 7 with a log-normal scatter draw of 2, the
stored `avg_slip_m` equals the unscattered `moment / (mu * area_m2)`; a value
carrying the scatter factor would differ, so the scattered `slip` the script
computes is not what it persists. -/
theorem physics_avg_slip_stored_unscattered :
    (physicsEvent 0 7 segA 10 2 0 0 0 "t").avg_slip_m
        = some (pow10 (1.5 * 7 + 9.1) / (3.2e10 * pow10 (7 - 4.0) * 1e6)) ∧
    pow10 (1.5 * 7 + 9.1) / (3.2e10 * pow10 (7 - 4.0) * 1e6) ≠
      pow10 (1.5 * 7 + 9.1) / (3.2e10 * pow10 (7 - 4.0) * 1e6) * 2 := by
  constructor
  · rfl
  · intro h
    have hpos : 0 < pow10 (1.5 * 7 + 9.1) / (3.2e10 * pow10 (7 - 4.0) * 1e6) :=
      div_pos (pow10_pos _)
        (mul_pos (mul_pos (by norm_num) (pow10_pos _)) (by norm_num))
    linarith [h.ge, h.le]

/-- C3 counterexample: two runs given the same explicit seed (42) and the
same one-template catalog differ whenever the ambient process-wide generator
state differs, because no script seeds or accepts a seed for the global
`random` module: the supplied seed does not determine the output. -/
theorem same_seed_different_output_cex :
    bootstrapRunWithSeed 42 (fun _ => 1.6) [tmplA]
      ≠ bootstrapRunWithSeed 42 (fun _ => 2.0) [tmplA] := by
  have h1 : bootstrapRunWithSeed 42 (fun _ => 1.6) [tmplA]
      = some [bootstrapSynthetic 1.6 tmplA] :=
    generate_bootstrap_singleton _ (by norm_num [tmplA]) (by norm_num [tmplA])
      (by norm_num [tmplA]) (by norm_num [tmplA])
  have h2 : bootstrapRunWithSeed 42 (fun _ => 2.0) [tmplA]
      = some [bootstrapSynthetic 2.0 tmplA] :=
    generate_bootstrap_singleton _ (by norm_num [tmplA]) (by norm_num [tmplA])
      (by norm_num [tmplA]) (by norm_num [tmplA])
  rw [h1, h2]
  intro hcontra
  have hlist : [bootstrapSynthetic 1.6 tmplA] = [bootstrapSynthetic 2.0 tmplA] :=
    Option.some.inj hcontra
  have heq : bootstrapSynthetic 1.6 tmplA = bootstrapSynthetic 2.0 tmplA := by
    simpa using hlist
  have hm := congrArg Event.magnitude heq
  rw [bootstrapSynthetic_magnitude, bootstrapSynthetic_magnitude] at hm
  norm_num [tmplA] at hm

/-- C3 amended: each strategy's output is a function of its input tables and
the ambient global generator draws alone; an explicitly supplied seed is
never consumed, so changing the seed (with the ambient draws fixed) never
changes the output. -/
theorem output_determined_by_global_rng_not_seed
    (seed seed' : ℕ) (ambB : ℕ → ℝ) (eq_data : List Event)
    (fault_data : List FaultSegment) (b_value : ℝ)
    (rs depthsP slips jLons jLats monthDraws : ℕ → ℝ) (segPick vertPick : ℕ → ℕ)
    (fmtDate : ℝ → String) (nP : ℕ)
    (all_data : List Event) (tmplPick : ℕ → ℕ)
    (magsS dLonsS dLatsS depthsS : ℕ → ℝ) (timesS : ℕ → String) (nS : ℕ) :
    bootstrapRunWithSeed seed ambB eq_data
        = bootstrapRunWithSeed seed' ambB eq_data ∧
    physicsRunWithSeed seed fault_data b_value rs depthsP slips jLons jLats
        monthDraws segPick vertPick fmtDate nP
      = physicsRunWithSeed seed' fault_data b_value rs depthsP slips jLons jLats
        monthDraws segPick vertPick fmtDate nP ∧
    simpleRunWithSeed seed all_data tmplPick magsS dLonsS dLatsS depthsS timesS nS
      = simpleRunWithSeed seed' all_data tmplPick magsS dLonsS dLatsS depthsS
        timesS nS :=
  ⟨rfl, rfl, rfl⟩

/-- C4 counterexample: a bootstrap run over an empty catalog (zero raw
events) returns `None` — not an empty event set — and persists nothing; a
physics run with an empty fault table skips all indices and likewise returns
`None`. -/
theorem zero_raw_events_returns_none_cex :
    generate_bootstrap_synthetics (fun _ => 2) [] = none ∧
    generate_bootstrap_synthetics (fun _ => 2) [] ≠ some [] ∧
    generate_physics_snapshots [] 1.15 (fun _ => 0.5) (fun _ => 10) (fun _ => 1)
        (fun _ => 0) (fun _ => 0) (fun _ => 8) (fun _ => 0) (fun _ => 0)
        (fun _ => "") 20 = none := by
  have h0 : generate_bootstrap_synthetics (fun _ => 2) [] = none := by
    unfold generate_bootstrap_synthetics bootstrapTemplates bootstrapRaw
    simp
  refine ⟨h0, by rw [h0]; exact fun h => Option.noConfusion h, ?_⟩
  unfold generate_physics_snapshots physicsRaw physicsStep suitableSegments
  simp

/-- C4 amended: a strategy whose raw event list is empty returns `None` and
hands nothing over; when raw events exist the strategy returns the filtered
list — which is the empty set exactly when the sanity check removed every
raw event — and that (possibly empty) list is what the assembler receives. -/
theorem zero_valid_events_yield
    (dMs : ℕ → ℝ) (eq_data : List Event) (fault_data : List FaultSegment)
    (b_value : ℝ) (rs depthsP slips jLons jLats monthDraws : ℕ → ℝ)
    (segPick vertPick : ℕ → ℕ) (fmtDate : ℝ → String) (nP : ℕ) :
    (bootstrapTemplates eq_data = [] →
      generate_bootstrap_synthetics dMs eq_data = none) ∧
    (bootstrapTemplates eq_data ≠ [] →
      generate_bootstrap_synthetics dMs eq_data
        = some (validityFilter (bootstrapRaw dMs (bootstrapTemplates eq_data)))) ∧
    (physicsRaw fault_data b_value rs depthsP slips jLons jLats monthDraws
        segPick vertPick fmtDate nP = [] →
      generate_physics_snapshots fault_data b_value rs depthsP slips jLons jLats
        monthDraws segPick vertPick fmtDate nP = none) ∧
    (physicsRaw fault_data b_value rs depthsP slips jLons jLats monthDraws
        segPick vertPick fmtDate nP ≠ [] →
      generate_physics_snapshots fault_data b_value rs depthsP slips jLons jLats
        monthDraws segPick vertPick fmtDate nP
        = some (validityFilter (physicsRaw fault_data b_value rs depthsP slips
            jLons jLats monthDraws segPick vertPick fmtDate nP))) := by
  refine ⟨fun h => ?_, fun h => ?_, fun h => ?_, fun h => ?_⟩
  · unfold generate_bootstrap_synthetics
    rw [h]
    simp [bootstrapRaw]
  · unfold generate_bootstrap_synthetics
    rw [if_neg]
    simp only [List.isEmpty_iff]
    intro hraw
    apply h
    have := bootstrapRaw_length dMs (bootstrapTemplates eq_data)
    rw [hraw] at this
    exact List.length_eq_zero.mp this.symm
  · unfold generate_physics_snapshots
    rw [h]
    simp
  · unfold generate_physics_snapshots
    rw [if_neg]
    simpa [List.isEmpty_iff] using h

/-- C5: the bootstrap strategy's templates are exactly the real events with
`5.0 ≤ magnitude < 6.0`; it produces exactly one raw synthetic per template,
in order (no skipping); and each synthetic keeps the template's time,
longitude, latitude and depth unchanged, adds the drawn `ΔM` to the
magnitude, adds `1.5 * ΔM` to `log_energy`, recomputes both Wells-Coppersmith
dimensions at the new magnitude, and carries `method = "bootstrap"`,
`sample_weight = 0.3` and the id `"SYN_" ++ template.id`. -/
theorem bootstrap_one_event_per_template (dMs : ℕ → ℝ) (eq_data : List Event) :
    (∀ e, e ∈ bootstrapTemplates eq_data ↔
      e ∈ eq_data ∧ 5.0 ≤ e.magnitude ∧ e.magnitude < 6.0) ∧
    (bootstrapRaw dMs (bootstrapTemplates eq_data)).length
      = (bootstrapTemplates eq_data).length ∧
    (∀ i, (bootstrapRaw dMs (bootstrapTemplates eq_data)).get? i
      = ((bootstrapTemplates eq_data).get? i).map
          fun t => bootstrapSynthetic (dMs i) t) ∧
    (∀ dM t, (bootstrapSynthetic dM t).time = t.time
      ∧ (bootstrapSynthetic dM t).longitude = t.longitude
      ∧ (bootstrapSynthetic dM t).latitude = t.latitude
      ∧ (bootstrapSynthetic dM t).depth_km = t.depth_km
      ∧ (bootstrapSynthetic dM t).magnitude = t.magnitude + dM
      ∧ (bootstrapSynthetic dM t).log_energy
          = t.log_energy.map (fun le => le + 1.5 * dM)
      ∧ (bootstrapSynthetic dM t).rupture_length_km = wcLength (t.magnitude + dM)
      ∧ (bootstrapSynthetic dM t).rupture_width_km = wcWidth (t.magnitude + dM)
      ∧ (bootstrapSynthetic dM t).method = "bootstrap"
      ∧ (bootstrapSynthetic dM t).sample_weight = 0.3
      ∧ (bootstrapSynthetic dM t).id = "SYN_" ++ t.id) := by
  refine ⟨fun e => ?_, bootstrapRaw_length dMs _, fun i => bootstrapRaw_get? dMs _ i,
    fun dM t => ⟨rfl, rfl, rfl, rfl, rfl, rfl, rfl, rfl, rfl, rfl, rfl⟩⟩
  unfold bootstrapTemplates
  rw [List.mem_filter]
  simp

/-- C6: the b-value estimator returns the undetermined result (`none`) if and
only if fewer than 2 magnitudes pass the `≥ m_min` cut; otherwise it returns
`b = log10(e) / (mean - m_min)` with `mean` the average of the qualifying
magnitudes, and `uncertainty = 2.3 * b / sqrt(n)` with `n` their count. -/
theorem estimate_b_value_spec (magnitudes : List ℝ) (m_min : ℝ) :
    (∀ m, m ∈ magnitudes.filter (fun m => decide (m_min ≤ m)) ↔
      m ∈ magnitudes ∧ m_min ≤ m) ∧
    (estimate_b_value magnitudes m_min = none ↔
      (magnitudes.filter fun m => decide (m_min ≤ m)).length < 2) ∧
    (∀ b u, estimate_b_value magnitudes m_min = some (b, u) →
      2 ≤ (magnitudes.filter fun m => decide (m_min ≤ m)).length ∧
      b = log10 (Real.exp 1) /
        ((magnitudes.filter fun m => decide (m_min ≤ m)).sum /
          (((magnitudes.filter fun m => decide (m_min ≤ m)).length : ℝ)) - m_min) ∧
      u = 2.3 * b / Real.sqrt
          (((magnitudes.filter fun m => decide (m_min ≤ m)).length : ℝ))) := by
  refine ⟨fun m => by rw [List.mem_filter]; simp, ?_, ?_⟩
  · unfold estimate_b_value
    dsimp only
    split_ifs with h
    · simpa using h
    · simpa using h
  · intro b u hbu
    unfold estimate_b_value at hbu
    dsimp only at hbu
    split_ifs at hbu with h
    rw [Option.some.injEq, Prod.mk.injEq] at hbu
    obtain ⟨hb, hu⟩ := hbu
    refine ⟨not_lt.mp h, hb.symm, ?_⟩
    rw [← hu, ← hb]

/-- C9 counterexample: a magnitude-5.0 template with the draw `ΔM = 1.5`
(both attainable: the template filter is inclusive at 5.0 and
`random.uniform(1.5, 2.3)` includes its endpoints) yields a raw bootstrap
magnitude of exactly 6.5, so the output magnitude is not strictly above
6.5. -/
theorem bootstrap_magnitude_attains_lower_endpoint_cex :
    ((bootstrapRaw (fun _ => 1.5) (bootstrapTemplates [tmplB])).headI).magnitude
        = 6.5 ∧
    ¬ (6.5 < ((bootstrapRaw (fun _ => 1.5)
        (bootstrapTemplates [tmplB])).headI).magnitude) := by
  have h : bootstrapTemplates [tmplB] = [tmplB] :=
    bootstrapTemplates_singleton (by norm_num [tmplB, tmplA])
      (by norm_num [tmplB, tmplA])
  have hm : ((bootstrapRaw (fun _ => 1.5)
      (bootstrapTemplates [tmplB])).headI).magnitude = 6.5 := by
    rw [h, bootstrapRaw_singleton]
    show (bootstrapSynthetic 1.5 tmplB).magnitude = 6.5
    rw [bootstrapSynthetic_magnitude]
    norm_num [tmplB, tmplA]
  exact ⟨hm, by rw [hm]; exact lt_irrefl 6.5⟩

/-- C9 amended: for in-range draws `ΔM ∈ [1.5, 2.3]` every raw bootstrap
magnitude lies in the half-open interval `[6.5, 8.3)` (the lower endpoint is
attainable), and bootstrap magnitudes can exceed the 7.3 cap of the physics
and simple strategies, e.g. a 5.9 template with `ΔM = 2.3` gives 8.2. -/
theorem bootstrap_magnitude_range (dMs : ℕ → ℝ) (eq_data : List Event)
    (hdM : ∀ i, 1.5 ≤ dMs i ∧ dMs i ≤ 2.3) :
    (∀ e ∈ bootstrapRaw dMs (bootstrapTemplates eq_data),
      6.5 ≤ e.magnitude ∧ e.magnitude < 8.3) ∧
    7.3 < ((bootstrapRaw (fun _ => 2.3)
        (bootstrapTemplates [tmplC])).headI).magnitude := by
  constructor
  · intro e he
    rw [List.mem_iff_get?] at he
    obtain ⟨i, hi⟩ := he
    rw [bootstrapRaw_get?, Option.map_eq_some'] at hi
    obtain ⟨t, ht, rfl⟩ := hi
    have htm := List.get?_mem ht
    unfold bootstrapTemplates at htm
    rw [List.mem_filter] at htm
    have hb := of_decide_eq_true htm.2
    have hi' := hdM i
    rw [bootstrapSynthetic_magnitude]
    exact ⟨by linarith [hb.1, hi'.1], by linarith [hb.2, hi'.2]⟩
  · have h : bootstrapTemplates [tmplC] = [tmplC] :=
      bootstrapTemplates_singleton (by norm_num [tmplC, tmplA])
        (by norm_num [tmplC, tmplA])
    rw [h, bootstrapRaw_singleton]
    show (7.3 : ℝ) < (bootstrapSynthetic 2.3 tmplC).magnitude
    rw [bootstrapSynthetic_magnitude]
    norm_num [tmplC, tmplA]

/-- Witness for C9's amended theorem with the constant draw 2.0 over a
one-template catalog. -/
theorem bootstrap_magnitude_range_witness :
    (∀ e ∈ bootstrapRaw (fun _ => 2.0) (bootstrapTemplates [tmplA]),
      6.5 ≤ e.magnitude ∧ e.magnitude < 8.3) ∧
    7.3 < ((bootstrapRaw (fun _ => 2.3)
        (bootstrapTemplates [tmplC])).headI).magnitude :=
  bootstrap_magnitude_range (fun _ => 2.0) [tmplA] (fun _ => by norm_num)

/-- C10: every raw physics event has its depth draw in `[5, 15]`, magnitude
capped at 7.3, and rupture length `sqrt(2 * 10^(M - 4))`, which is below
200 km; hence the validity filter's removal branch never fires on physics
output — the filter returns it unchanged. -/
theorem physics_raw_always_valid (fault_data : List FaultSegment) (b_value : ℝ)
    (rs depthsP slips jLons jLats monthDraws : ℕ → ℝ) (segPick vertPick : ℕ → ℕ)
    (fmtDate : ℝ → String) (n : ℕ)
    (hdepth : ∀ i, 5 ≤ depthsP i ∧ depthsP i ≤ 15) :
    (∀ e ∈ physicsRaw fault_data b_value rs depthsP slips jLons jLats monthDraws
        segPick vertPick fmtDate n,
      (5 ≤ e.depth_km ∧ e.depth_km ≤ 15) ∧ e.magnitude ≤ 7.3 ∧
      e.rupture_length_km = Real.sqrt (2 * pow10 (e.magnitude - 4.0)) ∧
      e.rupture_length_km < 200) ∧
    validityFilter (physicsRaw fault_data b_value rs depthsP slips jLons jLats
        monthDraws segPick vertPick fmtDate n)
      = physicsRaw fault_data b_value rs depthsP slips jLons jLats monthDraws
          segPick vertPick fmtDate n := by
  have key : ∀ e ∈ physicsRaw fault_data b_value rs depthsP slips jLons jLats
      monthDraws segPick vertPick fmtDate n,
      (5 ≤ e.depth_km ∧ e.depth_km ≤ 15) ∧ e.magnitude ≤ 7.3 ∧
      e.rupture_length_km = Real.sqrt (2 * pow10 (e.magnitude - 4.0)) ∧
      e.rupture_length_km < 200 := by
    intro e he
    unfold physicsRaw at he
    rw [List.mem_filterMap] at he
    obtain ⟨i, _, hfi⟩ := he
    unfold physicsStep at hfi
    split_ifs at hfi with hs
    rw [Option.some.injEq] at hfi
    subst hfi
    rw [physicsEvent_depth, physicsEvent_magnitude, physicsEvent_length]
    have hm : magSample b_value (rs i) ≤ 7.3 := min_le_right _ _
    exact ⟨hdepth i, hm, by rw [mul_comm], sqrt_area_lt_200 hm⟩
  refine ⟨key, validityFilter_eq_self fun e he => ?_⟩
  obtain ⟨⟨h5, _⟩, _, _, hlt⟩ := key e he
  exact ⟨by linarith, hlt.le⟩

/-- Witness for C10 on a one-segment fault table with constant draws. -/
theorem physics_raw_always_valid_witness :
    (∀ e ∈ physicsRaw [segA] 1.15 (fun _ => 0.5) (fun _ => 10) (fun _ => 1)
        (fun _ => 0) (fun _ => 0) (fun _ => 8) (fun _ => 0) (fun _ => 0)
        (fun _ => "") 3,
      (5 ≤ e.depth_km ∧ e.depth_km ≤ 15) ∧ e.magnitude ≤ 7.3 ∧
      e.rupture_length_km = Real.sqrt (2 * pow10 (e.magnitude - 4.0)) ∧
      e.rupture_length_km < 200) ∧
    validityFilter (physicsRaw [segA] 1.15 (fun _ => 0.5) (fun _ => 10)
        (fun _ => 1) (fun _ => 0) (fun _ => 0) (fun _ => 8) (fun _ => 0)
        (fun _ => 0) (fun _ => "") 3)
      = physicsRaw [segA] 1.15 (fun _ => 0.5) (fun _ => 10) (fun _ => 1)
          (fun _ => 0) (fun _ => 0) (fun _ => 8) (fun _ => 0) (fun _ => 0)
          (fun _ => "") 3 :=
  physics_raw_always_valid [segA] 1.15 (fun _ => 0.5) (fun _ => 10) (fun _ => 1)
    (fun _ => 0) (fun _ => 0) (fun _ => 8) (fun _ => 0) (fun _ => 0)
    (fun _ => "") 3 (fun _ => by norm_num)

/-- C1: whatever table a strategy persists satisfies the two physical bounds.
The bootstrap and physics scripts persist exactly `validityFilter` of their
raw output, so every persisted row has `depth_km ≥ 0` and
`rupture_length_km ≤ 200`; the simple script persists its raw output
directly, and (for draws in the ranges `random.uniform` guarantees) that
output already satisfies both bounds row for row, so it too equals its own
image under the same filter — the filter drops any violating raw row in the
first two strategies and has nothing to drop in the third. -/
theorem strategies_apply_validity_filter
    (dMs : ℕ → ℝ) (eq_data : List Event)
    (fault_data : List FaultSegment) (b_value : ℝ)
    (rs depthsP slips jLons jLats monthDraws : ℕ → ℝ) (segPick vertPick : ℕ → ℕ)
    (fmtDate : ℝ → String) (nP : ℕ)
    (all_data : List Event) (tmplPick : ℕ → ℕ)
    (magsS dLonsS dLatsS depthsS : ℕ → ℝ) (timesS : ℕ → String) (nS : ℕ) :
    (∀ out, generate_bootstrap_synthetics dMs eq_data = some out →
      out = validityFilter (bootstrapRaw dMs (bootstrapTemplates eq_data)) ∧
      ∀ e ∈ out, 0 ≤ e.depth_km ∧ e.rupture_length_km ≤ 200) ∧
    (∀ out, generate_physics_snapshots fault_data b_value rs depthsP slips jLons
        jLats monthDraws segPick vertPick fmtDate nP = some out →
      out = validityFilter (physicsRaw fault_data b_value rs depthsP slips jLons
        jLats monthDraws segPick vertPick fmtDate nP) ∧
      ∀ e ∈ out, 0 ≤ e.depth_km ∧ e.rupture_length_km ≤ 200) ∧
    (∀ out, (∀ i, 6.5 ≤ magsS i ∧ magsS i ≤ 7.3) →
      (∀ i, 5 ≤ depthsS i ∧ depthsS i ≤ 20) →
      generate_simple_synthetics all_data tmplPick magsS dLonsS dLatsS depthsS
        timesS nS = some out →
      out = validityFilter out ∧
      ∀ e ∈ out, 0 ≤ e.depth_km ∧ e.rupture_length_km ≤ 200) := by
  refine ⟨fun out h => ?_, fun out h => ?_, fun out hmag hdep h => ?_⟩
  · unfold generate_bootstrap_synthetics at h
    dsimp only at h
    split_ifs at h with hcond
    rw [Option.some.injEq] at h
    subst h
    exact ⟨rfl, fun e he => (mem_validityFilter.mp he).2⟩
  · unfold generate_physics_snapshots at h
    dsimp only at h
    split_ifs at h with hcond
    rw [Option.some.injEq] at h
    subst h
    exact ⟨rfl, fun e he => (mem_validityFilter.mp he).2⟩
  · unfold generate_simple_synthetics at h
    dsimp only at h
    split_ifs at h with hcond
    rw [Option.some.injEq] at h
    subst h
    have hall : ∀ e ∈ (List.range nS).map (fun i =>
        simpleEvent i ((simpleTemplates all_data).getD
          (tmplPick i % (simpleTemplates all_data).length) default)
          (magsS i) (dLonsS i) (dLatsS i) (depthsS i) (timesS i)),
        0 ≤ e.depth_km ∧ e.rupture_length_km ≤ 200 := by
      intro e he
      rw [List.mem_map] at he
      obtain ⟨i, _, rfl⟩ := he
      rw [simpleEvent_depth, simpleEvent_length]
      exact ⟨by linarith [(hdep i).1], (sqrt_area_lt_200 (hmag i).2).le⟩
    exact ⟨(validityFilter_eq_self hall).symm, hall⟩

end SynthData
